import Mathlib

/-!
Shallow embedding of the voice-chat assistant (`src/components/ChatBot.tsx`).

The component is a single-threaded, event-driven controller.  We embed it as
an explicit state machine: the React `useState`/`useRef` cells become fields
of `State`, every event handler and every resumption point of an `async`
function becomes one case of `step : State → Ev → Option (State × List Eff)`.
`async` functions are split at their `await` points: in-flight backend
fetches, TTS fetches and `audio.play()` promises are kept in explicit queues,
and `setTimeout` calls become pending entries in `State.timers`.  Commands
issued to the outside world (recognition start/stop, network requests,
`URL.revokeObjectURL`, `audio.play`) are recorded as a list of effects
returned by each step.
-/

namespace VoiceChat

/-- One chat message (interface `Message` in the source); ids come from
`Date.now()` in the source and are modelled by a fresh counter. -/
inductive Sender
  | user
  | bot
deriving DecidableEq, Repr

/-- Chat message: sender, display text and id (source `interface Message`). -/
structure Message where
  sender : Sender
  text : String
  id : Nat
deriving DecidableEq, Repr

/-- Normalized recognition error codes (`e.error` strings of the Web Speech
API handled by `recognition.onerror`): `not-allowed`, `no-speech`,
`audio-capture` and the `default` branch. -/
inductive ErrCode
  | notAllowed
  | noSpeech
  | audioCapture
  | other
deriving DecidableEq, Repr

/-- The kinds of `setTimeout` calls occurring in the source:
* `tracked` — the 1000 ms restart timer stored in `restartTimeoutRef`
  (`restartRecognition`);
* `bareRestart` — the untracked 500 ms `setTimeout(() => startRecognition(), 500)`
  after playback end/error/stop and in the TTS catch;
* `bareRetry` — the untracked 2000 ms retry in `startRecognition`'s catch;
* `settle` — the 200 ms settle wait inside `startRecognition`
  (`await new Promise(resolve => setTimeout(resolve, 200))`); firing it runs
  the second half of `startRecognition`;
* `sendDebounce` — the 500 ms delay in `recognition.onresult` before
  `sendMessage(transcript.trim())`. -/
inductive TimerKind
  | tracked
  | bareRestart
  | bareRetry
  | settle
  | sendDebounce (text : String)
deriving DecidableEq, Repr

/-- A pending `setTimeout`: fresh id, kind (which callback), delay in ms. -/
structure Timer where
  id : Nat
  kind : TimerKind
  delay : Nat
deriving DecidableEq, Repr

/-- The `HTMLAudioElement` held in `currentAudioRef`: its object URL (fresh
id standing for `URL.createObjectURL(audioBlob)`) and whether `pause()` was
called on it (`stopSpeaking`). -/
structure Audio where
  url : Nat
  paused : Bool
deriving DecidableEq, Repr

/-- Commands issued to the external world by the component. -/
inductive Eff
  | recStartCmd
  | recStopCmd
  | backendRequest (q : String)
  | ttsRequest (text : String)
  | revoke (url : Nat)
  | playCmd (url : Nat)
deriving DecidableEq, Repr

/-- The component state: every `useState` and `useRef` cell of `ChatBot`,
plus the explicit queues for pending timers and in-flight promises, an
abstract engine flag (`engineOn`: the platform recognition engine is
running, used to model its "already started" throw and event delivery), the
environment constant `hasApiKey` (`REACT_APP_OPENAI_API_KEY` present), and a
fresh-id counter. -/
structure State where
  messages : List Message
  query : String
  loading : Bool
  muted : Bool
  isListening : Bool
  voiceEnabled : Bool
  speechSupported : Bool
  permissionStatus : String
  currentSpeakingId : Option Nat
  recognitionPresent : Bool
  restartTimeout : Option Nat
  isStarting : Bool
  isProcessingVoice : Bool
  isSpeaking : Bool
  currentAudio : Option Audio
  engineOn : Bool
  timers : List Timer
  backendQ : List (Nat × String)
  ttsQ : List (Nat × String × Nat)
  playQ : List (Nat × Nat)
  hasApiKey : Bool
  nextId : Nat
deriving DecidableEq, Repr

/-- JavaScript whitespace (the `\s` class restricted to the ASCII characters
that can occur here). -/
def isSpaceJS (c : Char) : Bool :=
  c == ' ' || c == '\t' || c == '\n' || c == '\r' || c == '\x0b' || c == '\x0c'

/-- JavaScript `String.prototype.trim()`: strip leading and trailing
whitespace. -/
def jsTrim (s : String) : String :=
  String.mk (((s.data.dropWhile isSpaceJS).reverse.dropWhile isSpaceJS).reverse)

/-- `clearTimeout tid` / removal of a fired timer. -/
def cancelTimer (s : State) (tid : Nat) : State :=
  { s with timers := s.timers.filter (fun t => !(t.id == tid)) }

/-- `setTimeout(cb, d)`: arm a fresh timer, returning its id. -/
def armTimer (s : State) (k : TimerKind) (d : Nat) : State × Nat :=
  ({ s with timers := s.timers ++ [⟨s.nextId, k, d⟩], nextId := s.nextId + 1 },
   s.nextId)

/-- The `if (restartTimeoutRef.current) clearTimeout(...)` pattern: clear the
timer referenced by `restartTimeoutRef` (the reference itself keeps its —
possibly stale — value, as in the source). -/
def clearTrackedRef (s : State) : State :=
  match s.restartTimeout with
  | some tid => cancelTimer s tid
  | none => s

/-- `restartRecognition` (source lines 168–180): clear any pending tracked
timer, then — unless voice is disabled or the AI is speaking — arm the
1000 ms tracked restart timer. -/
def restartRecognitionFn (s : State) : State :=
  let s1 := clearTrackedRef s
  if !s1.voiceEnabled || s1.isSpeaking then s1
  else
    let p := armTimer s1 .tracked 1000
    let s2 := p.1
    { s2 with restartTimeout := some p.2 }

/-- `stopRecognition` (source lines 226–235): stop the engine if present,
clear the listening/starting flags, clear any pending tracked timer. -/
def stopRecognitionFn (s : State) : State × List Eff :=
  let p : State × List Eff :=
    if s.recognitionPresent then ({ s with engineOn := false }, [Eff.recStopCmd])
    else (s, [])
  let s0 := p.1
  let s1 := { s0 with isListening := false, isStarting := false }
  (clearTrackedRef s1, p.2)

/-- First half of `startRecognition` (source lines 194–209): guard
`!recognitionRef.current || isSpeaking`, clear the tracked timer, reset
flags, best-effort `recognition.stop()` (failures swallowed), then suspend
for the 200 ms settle delay (armed as a `settle` timer). -/
def startRecognitionFn (s : State) : State × List Eff :=
  if !s.recognitionPresent || s.isSpeaking then (s, [])
  else
    let s1 := clearTrackedRef s
    let s2 := { s1 with isStarting := false, isListening := false, engineOn := false }
    ((armTimer s2 .settle 200).1, [Eff.recStopCmd])

/-- Second half of `startRecognition` (source lines 211–223), run when the
settle timer fires: set the starting flag and call `recognition.start()`.
If the engine is already running this call throws ("already started"): the
catch clears the flags and — when voice is enabled and not speaking — arms
the untracked 2000 ms retry. -/
def settleFiredFn (s : State) : State × List Eff :=
  let s1 := { s with isStarting := true }
  if s1.engineOn then
    let s2 := { s1 with isStarting := false, isListening := false }
    let s3 := if s2.voiceEnabled && !s2.isSpeaking
      then (armTimer s2 .bareRetry 2000).1 else s2
    (s3, [Eff.recStartCmd])
  else
    ({ s1 with engineOn := true }, [Eff.recStartCmd])

/-- Entry of `speakWithOpenAI` (source lines 304–323) up to the TTS fetch:
return immediately without an API key; otherwise set the speaking state,
stop recognition, and issue the TTS request (left in-flight in `ttsQ`). -/
def speakWithOpenAIFn (s : State) (text : String) (msgId : Nat) : State × List Eff :=
  if !s.hasApiKey then (s, [])
  else
    let s1 := { s with isSpeaking := true, currentSpeakingId := some msgId }
    let p := stopRecognitionFn s1
    let sr := p.1
    let s2 := { sr with
      ttsQ := sr.ttsQ ++ [(sr.nextId, text, msgId)]
      nextId := sr.nextId + 1 }
    (s2, p.2 ++ [Eff.ttsRequest text])

/-- Entry of `sendMessage` (source lines 258–275) up to the backend fetch:
ignore blank input, append the user message, set loading, clear the input
field, and issue the backend request (left in-flight in `backendQ`). -/
def sendMessageFn (s : State) (input : String) : State × List Eff :=
  if jsTrim input = "" then (s, [])
  else
    let s1 := { s with
      messages := s.messages ++ [⟨Sender.user, input, s.nextId⟩]
      loading := true
      query := ""
      backendQ := s.backendQ ++ [(s.nextId + 1, input)]
      nextId := s.nextId + 2 }
    (s1, [Eff.backendRequest input])

-- `formatResponse` (source lines 380–386): the four chained
-- `String.replace` regex passes, implemented fuel-recursively on `List Char`.

/-- Characters of the literal `<strong>`. -/
def strongOpen : List Char := "<strong>".data

/-- Characters of the literal `</strong>`. -/
def strongClose : List Char := "</strong>".data

/-- Characters of the literal `<br />`. -/
def brTag : List Char := "<br />".data

/-- Find the closing `**` for the `/\*\*(.*?)\*\*/` pass; `.` does not match
line terminators, so the search stops at a newline. Returns the captured
content and the remainder after the closing `**`. -/
def findCloseB : List Char → Option (List Char × List Char)
  | [] => none
  | '*' :: '*' :: rest => some ([], rest)
  | '\n' :: _ => none
  | '\r' :: _ => none
  | c :: rest => (findCloseB rest).map (fun pr => (c :: pr.1, pr.2))

/-- `.replace(/\*\*(.*?)\*\*/g, "<strong>$1</strong>")`. -/
def replaceBoldAux : Nat → List Char → List Char
  | 0, l => l
  | _ + 1, [] => []
  | fuel + 1, '*' :: '*' :: rest =>
    match findCloseB rest with
    | some pr => strongOpen ++ pr.1 ++ strongClose ++ replaceBoldAux fuel pr.2
    | none => '*' :: replaceBoldAux fuel ('*' :: rest)
  | fuel + 1, c :: rest => c :: replaceBoldAux fuel rest

/-- The second replace pass: the global regex "dash, space, one or more
non-newline characters" rewritten to a bullet (`• $1`): a `- ` followed by
at least one non-newline character becomes `• `; the greedy `[^\n]+`
consumes the rest of the line. -/
def replaceDashAux : Nat → List Char → List Char
  | 0, l => l
  | _ + 1, [] => []
  | fuel + 1, '-' :: ' ' :: c :: rest =>
    if c = '\n' then '-' :: ' ' :: replaceDashAux fuel (c :: rest)
    else
      let pr := (c :: rest).span (fun ch => ch != '\n')
      '•' :: ' ' :: (pr.1 ++ replaceDashAux fuel pr.2)
  | fuel + 1, c :: rest => c :: replaceDashAux fuel rest

/-- `.replace(/\d+\.\s/g, "<br /><br /><strong>$&</strong>")`: a maximal
digit run followed by a literal dot and one whitespace character is wrapped;
backtracking inside the digit run can never succeed, so checking the maximal
run is exact. -/
def replaceNumAux : Nat → List Char → List Char
  | 0, l => l
  | _ + 1, [] => []
  | fuel + 1, c :: rest =>
    if c.isDigit then
      let digs := (c :: rest).takeWhile Char.isDigit
      let rest2 := (c :: rest).dropWhile Char.isDigit
      match rest2 with
      | '.' :: w :: rest3 =>
        if isSpaceJS w then
          brTag ++ brTag ++ strongOpen ++ digs ++ ['.', w] ++ strongClose ++
            replaceNumAux fuel rest3
        else digs ++ replaceNumAux fuel rest2
      | _ => digs ++ replaceNumAux fuel rest2
    else c :: replaceNumAux fuel rest

/-- `.replace(/(?:\r\n|\r|\n)/g, "<br />")`. -/
def replaceNlAux : Nat → List Char → List Char
  | 0, l => l
  | _ + 1, [] => []
  | fuel + 1, '\r' :: '\n' :: rest => brTag ++ replaceNlAux fuel rest
  | fuel + 1, '\r' :: rest => brTag ++ replaceNlAux fuel rest
  | fuel + 1, '\n' :: rest => brTag ++ replaceNlAux fuel rest
  | fuel + 1, c :: rest => c :: replaceNlAux fuel rest

/-- `formatResponse` (source lines 380–386). -/
def formatResponse (t : String) : String :=
  let l1 := replaceBoldAux (t.data.length + 1) t.data
  let l2 := replaceDashAux (l1.length + 1) l1
  let l3 := replaceNumAux (l2.length + 1) l2
  let l4 := replaceNlAux (l3.length + 1) l3
  String.mk l4

/-- Resumption of `sendMessage` when the backend fetch settles (source lines
277–301): on success append the formatted bot message and, when not muted,
run `speakWithOpenAI` (which completes immediately without an API key, in
which case `setLoading(false)` is reached at once); on failure (non-2xx or
transport) append the single inline error message. -/
def backendRespondsFn (s : State) (rid : Nat) (_input : String)
    (resp : Option String) : State × List Eff :=
  let s0 := { s with backendQ := s.backendQ.filter (fun p => !(p.1 == rid)) }
  match resp with
  | some responseText =>
    let botId := s0.nextId
    let s1 := { s0 with
      messages := s0.messages ++ [⟨Sender.bot, formatResponse responseText, botId⟩]
      nextId := s0.nextId + 1 }
    if !s1.muted then
      let p := speakWithOpenAIFn s1 responseText botId
      let sp := p.1
      if !sp.hasApiKey then ({ sp with loading := false }, p.2) else p
    else ({ s1 with loading := false }, [])
  | none =>
    ({ s0 with
        messages := s0.messages ++
          [⟨Sender.bot, "⚠️ Failed to connect to assistant.", s0.nextId⟩]
        nextId := s0.nextId + 1
        loading := false }, [])

/-- Resumption of `speakWithOpenAI` when the TTS fetch settles (source lines
325–364): on success create the object URL and audio element, install it in
`currentAudioRef` and call `audio.play()` (left in-flight in `playQ`); on
failure the catch (lines 365–377) clears the speaking state and, when voice
is enabled, arms the untracked 500 ms restart (it appends no message, does
not touch `currentAudioRef` and revokes nothing). `await speakWithOpenAI`
makes `sendMessage` resume afterwards, reaching `setLoading(false)` in the
failure case. -/
def ttsRespondsFn (s : State) (rid : Nat) (ok : Bool) : State × List Eff :=
  let s0 := { s with ttsQ := s.ttsQ.filter (fun p => !(p.1 == rid)) }
  if ok then
    let url := s0.nextId
    let s1 := { s0 with
      currentAudio := some ⟨url, false⟩
      playQ := s0.playQ ++ [(s0.nextId + 1, url)]
      nextId := s0.nextId + 2 }
    (s1, [Eff.playCmd url])
  else
    let s1 := { s0 with
      isSpeaking := false
      currentSpeakingId := none
      isStarting := false
      isListening := false
      loading := false }
    let s2 := if s1.voiceEnabled then (armTimer s1 .bareRestart 500).1 else s1
    (s2, [])

/-- Resolution of `await audio.play()` (source line 364): on success playback
has begun and `sendMessage` resumes (`setLoading(false)`); a rejected play
promise lands in the same catch (lines 365–377): speaking state cleared,
untracked 500 ms restart when voice enabled — `currentAudioRef` is left
untouched and the object URL is not revoked. -/
def playResolvesFn (s : State) (pid : Nat) (ok : Bool) : State × List Eff :=
  let s0 := { s with playQ := s.playQ.filter (fun p => !(p.1 == pid)) }
  if ok then ({ s0 with loading := false }, [])
  else
    let s1 := { s0 with
      isSpeaking := false
      currentSpeakingId := none
      isStarting := false
      isListening := false
      loading := false }
    let s2 := if s1.voiceEnabled then (armTimer s1 .bareRestart 500).1 else s1
    (s2, [])

/-- `audio.onended` and `audio.onerror` (source lines 334–362, identical
bodies): revoke the object URL, clear `currentAudioRef` and the speaking
state, and when voice is enabled arm the untracked 500 ms restart. -/
def audioExitFn (s : State) (a : Audio) : State × List Eff :=
  let s1 := { s with
    currentAudio := none
    isSpeaking := false
    currentSpeakingId := none
    isStarting := false
    isListening := false }
  let s2 := if s1.voiceEnabled then (armTimer s1 .bareRestart 500).1 else s1
  (s2, [Eff.revoke a.url])

/-- `stopSpeaking` (source lines 388–403): pause the current audio and reset
its position (the element stays in `currentAudioRef` and its URL is not
revoked), clear the speaking state, and when voice is enabled arm the
untracked 500 ms restart. -/
def stopSpeakingFn (s : State) : State × List Eff :=
  let s1 := match s.currentAudio with
    | some a => { s with currentAudio := some { a with paused := true } }
    | none => s
  let s2 := { s1 with
    isSpeaking := false
    currentSpeakingId := none
    isStarting := false
    isListening := false }
  let s3 := if s2.voiceEnabled then (armTimer s2 .bareRestart 500).1 else s2
  (s3, [])

/-- `recognition.onstart` (source lines 92–97). -/
def onStartFn (s : State) : State :=
  { s with isListening := true, permissionStatus := "listening", isStarting := false }

/-- `recognition.onresult` (source lines 99–120): a transcript arriving
while the AI is speaking is discarded; a transcript non-empty after trimming
sets the processing flag, fills the input field with the trimmed text and
arms the 500 ms debounce that will call `sendMessage(transcript.trim())`. -/
def onResultFn (s : State) (t : String) : State :=
  if s.isSpeaking then s
  else if jsTrim t = "" then s
  else
    let s1 := { s with isProcessingVoice := true, query := jsTrim t }
    (armTimer s1 (.sendDebounce (jsTrim t)) 500).1

/-- `recognition.onerror` (source lines 122–146): clear flags; `not-allowed`
records permission `denied` and disables voice; `audio-capture` records
`no-microphone` and disables voice; `no-speech` and the default branch
schedule a guarded restart. The engine stops delivering after an error. -/
def onErrorFn (s : State) (c : ErrCode) : State :=
  let s1 := { s with isListening := false, isStarting := false, engineOn := false }
  match c with
  | .notAllowed => { s1 with permissionStatus := "denied", voiceEnabled := false }
  | .audioCapture => { s1 with permissionStatus := "no-microphone", voiceEnabled := false }
  | .noSpeech =>
    if s1.voiceEnabled && !s1.isSpeaking then restartRecognitionFn s1 else s1
  | .other =>
    if s1.voiceEnabled && !s1.isSpeaking then restartRecognitionFn s1 else s1

/-- `recognition.onend` (source lines 148–156). -/
def onEndFn (s : State) : State :=
  let s1 := { s with isListening := false, isStarting := false, engineOn := false }
  if s1.voiceEnabled && !s1.isSpeaking then restartRecognitionFn s1 else s1

/-- `toggleVoiceInput` (source lines 237–256); `granted` is the outcome of
`requestMicrophonePermission` when it is needed. -/
def toggleVoiceFn (s : State) (granted : Bool) : State × List Eff :=
  if !s.speechSupported then (s, [])
  else if !s.voiceEnabled then
    if s.permissionStatus == "denied" || s.permissionStatus == "unknown" then
      if granted then
        let s1 := { s with permissionStatus := "granted", voiceEnabled := true }
        if !s1.isSpeaking then startRecognitionFn s1 else (s1, [])
      else ({ s with permissionStatus := "denied" }, [])
    else
      let s1 := { s with voiceEnabled := true }
      if !s1.isSpeaking then startRecognitionFn s1 else (s1, [])
  else
    stopRecognitionFn { s with voiceEnabled := false }

/-- A timer firing: remove it from the pending list and run its callback —
the guarded restart for the tracked timer (source lines 175–179), a direct
`startRecognition()` for the untracked restart/retry timers, the second half
of `startRecognition` for the settle wait, and
`sendMessage(trimmed); setIsProcessingVoice(false)` for the debounce. -/
def timerFiresFn (s : State) (t : Timer) : State × List Eff :=
  let s0 := cancelTimer s t.id
  match t.kind with
  | .tracked =>
    if s0.voiceEnabled && !s0.isListening && !s0.isStarting && !s0.isSpeaking
    then startRecognitionFn s0 else (s0, [])
  | .bareRestart => startRecognitionFn s0
  | .bareRetry => startRecognitionFn s0
  | .settle => settleFiredFn s0
  | .sendDebounce q =>
    let p := sendMessageFn s0 q
    let sq := p.1
    ({ sq with isProcessingVoice := false }, p.2)

/-- External events driving the component: user interactions (the voice
toggle and Stop button are only rendered enabled/visible under the guards
encoded in `step`; the text input is disabled while processing voice or
speaking), recognition-engine events (delivered only while the engine is
on), timer firings, and resolutions of the in-flight promises. -/
inductive Ev
  | toggleVoice (granted : Bool)
  | toggleMute
  | clickStop
  | userSubmits (text : String)
  | recStarted
  | recResult (t : String)
  | recError (c : ErrCode)
  | recEnded
  | timerFires (tid : Nat)
  | backendResponds (rid : Nat) (resp : Option String)
  | ttsResponds (rid : Nat) (ok : Bool)
  | playResolves (pid : Nat) (ok : Bool)
  | audioEnded
  | audioErrored
deriving DecidableEq, Repr

/-- One step of the component: `none` when the event is not enabled in the
given state. -/
def step (s : State) (e : Ev) : Option (State × List Eff) :=
  match e with
  | .toggleVoice g =>
    if s.speechSupported && !(s.permissionStatus == "denied")
        && !(s.permissionStatus == "no-microphone")
    then some (toggleVoiceFn s g) else none
  | .toggleMute => some ({ s with muted := !s.muted }, [])
  | .clickStop => if s.isSpeaking then some (stopSpeakingFn s) else none
  | .userSubmits text =>
    if !s.isProcessingVoice && !s.isSpeaking
    then some (sendMessageFn { s with query := text } text) else none
  | .recStarted => if s.engineOn then some (onStartFn s, []) else none
  | .recResult t => if s.engineOn then some (onResultFn s t, []) else none
  | .recError c => if s.engineOn then some (onErrorFn s c, []) else none
  | .recEnded => if s.engineOn then some (onEndFn s, []) else none
  | .timerFires tid =>
    match s.timers.find? (fun t => t.id == tid) with
    | some t => some (timerFiresFn s t)
    | none => none
  | .backendResponds rid resp =>
    match s.backendQ.find? (fun p => p.1 == rid) with
    | some pr => some (backendRespondsFn s rid pr.2 resp)
    | none => none
  | .ttsResponds rid ok =>
    match s.ttsQ.find? (fun p => p.1 == rid) with
    | some _ => some (ttsRespondsFn s rid ok)
    | none => none
  | .playResolves pid ok =>
    match s.playQ.find? (fun p => p.1 == pid) with
    | some _ => some (playResolvesFn s pid ok)
    | none => none
  | .audioEnded =>
    match s.currentAudio with
    | some a => if a.paused then none else some (audioExitFn s a)
    | none => none
  | .audioErrored =>
    match s.currentAudio with
    | some a => if a.paused then none else some (audioExitFn s a)
    | none => none

/-- Run a list of events, keeping the state (all events must be enabled). -/
def runS (s : State) : List Ev → Option State
  | [] => some s
  | e :: evs =>
    match step s e with
    | some p => runS p.1 evs
    | none => none

/-- The mount-time state: supported browser, recognition instance created,
microphone permission reported `granted`; `hasKey` records whether
`REACT_APP_OPENAI_API_KEY` is set. -/
def initState (hasKey : Bool) : State where
  messages := []
  query := ""
  loading := false
  muted := false
  isListening := false
  voiceEnabled := false
  speechSupported := true
  permissionStatus := "granted"
  currentSpeakingId := none
  recognitionPresent := true
  restartTimeout := none
  isStarting := false
  isProcessingVoice := false
  isSpeaking := false
  currentAudio := none
  engineOn := false
  timers := []
  backendQ := []
  ttsQ := []
  playQ := []
  hasApiKey := hasKey
  nextId := 0

/-- Reachable controller states. -/
def Reach (s : State) : Prop :=
  ∃ k evs, runS (initState k) evs = some s

/-- Spec invariant I1: the active playback handle is non-null iff the session
is Speaking. -/
def invariantI1 (s : State) : Prop :=
  s.currentAudio ≠ none ↔ s.isSpeaking = true

/-- Timer kinds whose callback leads to `startRecognition` (restart timers in
the sense of invariant I3). -/
def restartKindB : TimerKind → Bool
  | .tracked => true
  | .bareRestart => true
  | .bareRetry => true
  | _ => false

/-- The pending restart timers of a state. -/
def restartTimers (s : State) : List Timer :=
  s.timers.filter (fun t => restartKindB t.kind)

/-- How many tracked (`restartTimeoutRef`) restart timers are pending. -/
def countTracked (s : State) : Nat :=
  (s.timers.filter (fun t => t.kind == TimerKind.tracked)).length

/-- Well-formedness of the pending-timer bookkeeping: pending ids are below
the fresh counter, pairwise distinct, and every pending tracked timer is the
one referenced by `restartTimeoutRef`. -/
def TimersOk (s : State) : Prop :=
  (∀ t ∈ s.timers, t.id < s.nextId) ∧
  (s.timers.map Timer.id).Nodup ∧
  (∀ t ∈ s.timers, t.kind = TimerKind.tracked → s.restartTimeout = some t.id)

-- Concrete event traces used to exhibit reachable states.  Timer, request
-- and message ids are the fresh-counter values produced along each trace.

/-- Answer spoken, then the user clicks Stop: `stopSpeaking` leaves the
paused audio element in `currentAudioRef`. -/
def c1CexEvs : List Ev :=
  [.userSubmits "hi", .backendResponds 1 (some "ans"), .ttsResponds 3 true,
   .playResolves 5 true, .clickStop]

/-- State reached by `c1CexEvs`. -/
def c1CexState : State := (runS (initState true) c1CexEvs).getD (initState true)

/-- Voice on, answer spoken, user clicks Stop (arming the untracked 500 ms
restart), the restart fires and arms the settle wait — all while the paused
audio element is still in `currentAudioRef`. -/
def c2CexEvs : List Ev :=
  [.toggleVoice true, .timerFires 0, .userSubmits "ask",
   .backendResponds 2 (some "reply"), .ttsResponds 4 true, .playResolves 6 true,
   .clickStop, .timerFires 7]

/-- State reached by `c2CexEvs`: settle timer 8 pending, handle non-null. -/
def c2CexState : State := (runS (initState true) c2CexEvs).getD (initState true)

/-- A TTS playback race: recognition settle wait armed by the voice toggle is
still pending when an answer arrives and speaking starts; the settle then
fires and turns the engine on while the AI is speaking. -/
def c3WitEvs : List Ev :=
  [.toggleVoice true, .userSubmits "ask", .backendResponds 2 (some "ans"),
   .timerFires 0]

/-- State reached by `c3WitEvs`: engine on and speaking. -/
def c3WitState : State := (runS (initState true) c3WitEvs).getD (initState true)

/-- Two answer cycles: the first ends naturally (arming untracked restart 7),
the second TTS fetch fails (arming untracked restart 12) — two restart
timers pending at once. -/
def c4CexEvs : List Ev :=
  [.toggleVoice true, .timerFires 0, .userSubmits "one",
   .backendResponds 2 (some "a"), .ttsResponds 4 true, .playResolves 6 true,
   .audioEnded, .userSubmits "two", .backendResponds 9 (some "b"),
   .ttsResponds 11 false]

/-- State reached by `c4CexEvs`. -/
def c4CexState : State := (runS (initState true) c4CexEvs).getD (initState true)

/-- Voice on, engine ended once: the tracked restart timer is armed. -/
def c4WitEvs : List Ev :=
  [.toggleVoice true, .timerFires 0, .recStarted, .recEnded]

/-- State reached by `c4WitEvs`: exactly one tracked timer pending. -/
def c4WitState : State := (runS (initState true) c4WitEvs).getD (initState true)

/-- An answer is being played back (voice enabled). -/
def c5CexEvs : List Ev :=
  [.toggleVoice true, .userSubmits "hello", .backendResponds 2 (some "hi there"),
   .ttsResponds 4 true, .playResolves 6 true]

/-- State reached by `c5CexEvs`: audio element playing. -/
def c5CexState : State := (runS (initState true) c5CexEvs).getD (initState true)

/-- Two overlapping restart paths make `recognition.start()` throw (already
started), arming the untracked 2000 ms retry; the engine then reports
`not-allowed`.  The retry is still pending after the denial. -/
def c6CexEvs : List Ev :=
  [.toggleVoice true, .timerFires 0, .userSubmits "q1",
   .backendResponds 2 (some "a1"), .ttsResponds 4 true, .playResolves 6 true,
   .audioEnded, .userSubmits "q2", .backendResponds 9 (some "a2"),
   .ttsResponds 11 false, .timerFires 7, .timerFires 12, .timerFires 13,
   .timerFires 14, .recError .notAllowed]

/-- State reached by `c6CexEvs`: permission denied, voice disabled, untracked
retry timer 15 still pending. -/
def c6CexState : State := (runS (initState true) c6CexEvs).getD (initState true)

/-- Engine running with a tracked restart timer pending (armed by a
`no-speech` error while a second settle wait was still outstanding). -/
def c6WitEvs : List Ev :=
  [.toggleVoice true, .timerFires 0, .userSubmits "q1",
   .backendResponds 2 (some "a1"), .ttsResponds 4 true, .playResolves 6 true,
   .audioEnded, .userSubmits "q2", .backendResponds 9 (some "a2"),
   .ttsResponds 11 false, .timerFires 7, .timerFires 12, .timerFires 13,
   .recError .noSpeech, .timerFires 14]

/-- State reached by `c6WitEvs`. -/
def c6WitState : State := (runS (initState true) c6WitEvs).getD (initState true)

/-- Recognition is listening while an untracked restart timer (12) is still
pending. -/
def c7CexEvs : List Ev :=
  [.toggleVoice true, .timerFires 0, .userSubmits "q1",
   .backendResponds 2 (some "a1"), .ttsResponds 4 true, .playResolves 6 true,
   .audioEnded, .userSubmits "q2", .backendResponds 9 (some "a2"),
   .ttsResponds 11 false, .timerFires 7, .timerFires 13, .recStarted]

/-- State reached by `c7CexEvs`: listening, untracked timer 12 pending. -/
def c7CexState : State := (runS (initState true) c7CexEvs).getD (initState true)

/-- An answer whose TTS request is in flight. -/
def c8CexEvs : List Ev :=
  [.userSubmits "hi", .backendResponds 1 (some "ans")]

/-- State reached by `c8CexEvs`: TTS request 3 in flight. -/
def c8CexState : State := (runS (initState true) c8CexEvs).getD (initState true)

/-- A state with both a backend request and a TTS request in flight: a typed
question was answered and is being synthesized while a debounced voice
transcript fires its own `sendMessage`. -/
def c8WitEvs : List Ev :=
  [.toggleVoice true, .timerFires 0, .recStarted, .userSubmits "typed",
   .recResult "spoken", .backendResponds 2 (some "ansA"), .timerFires 3]

/-- State reached by `c8WitEvs`. -/
def c8WitState : State := (runS (initState true) c8WitEvs).getD (initState true)

/-- Voice toggled on and the engine started: plain listening state. -/
def c9WitEvs : List Ev :=
  [.toggleVoice true, .timerFires 0, .recStarted]

/-- State reached by `c9WitEvs`. -/
def c9WitState : State := (runS (initState true) c9WitEvs).getD (initState true)

/-- Playback in progress (play promise resolved, audio element active). -/
def c1WitEvs : List Ev :=
  [.userSubmits "play", .backendResponds 1 (some "w"), .ttsResponds 3 true]

/-- State reached by `c1WitEvs`. -/
def c1WitState : State := (runS (initState true) c1WitEvs).getD (initState true)

/-- Speaking while an untracked restart timer (7) is pending. -/
def c2WitEvs : List Ev :=
  [.toggleVoice true, .timerFires 0, .userSubmits "one",
   .backendResponds 2 (some "a"), .ttsResponds 4 true, .playResolves 6 true,
   .audioEnded, .userSubmits "two", .backendResponds 9 (some "b")]

/-- State reached by `c2WitEvs`. -/
def c2WitState : State := (runS (initState true) c2WitEvs).getD (initState true)

/-- Speaking with the audio element active and the play promise in flight
(used to exercise the release paths of one playback unit). -/
def c5WitEvs : List Ev :=
  [.toggleVoice true, .userSubmits "speak", .backendResponds 2 (some "text"),
   .ttsResponds 4 true]

/-- State reached by `c5WitEvs`. -/
def c5WitState : State := (runS (initState true) c5WitEvs).getD (initState true)

/-- A backend request in flight with no API key configured. -/
def c10WitEvs : List Ev := [.userSubmits "hello"]

/-- State reached by `c10WitEvs` from the keyless initial state. -/
def c10WitState : State := (runS (initState false) c10WitEvs).getD (initState false)

-- General lemmas about the embedding.

/-- A state reached by running a trace from an initial state is reachable. -/
theorem reach_of_run (k : Bool) (evs : List Ev) (s : State)
    (h : runS (initState k) evs = some s) : Reach s :=
  ⟨k, evs, h⟩

/-- A freshly appended timer is the one found when looking up its id,
provided all previously pending ids are smaller. -/
theorem find_append_fresh (l : List Timer) (T : Timer) (n : Nat)
    (hTn : T.id = n) (h : ∀ x ∈ l, x.id < n) :
    (l ++ [T]).find? (fun t => t.id == n) = some T := by
  induction l with
  | nil => simp [List.find?, hTn]
  | cons a l ih =>
    have ha : a.id < n := h a (by simp)
    have : (a.id == n) = false := by
      simp [Nat.ne_of_lt ha]
    simp only [List.cons_append, List.find?_cons, this]
    exact ih (fun x hx => h x (by simp [hx]))

/-- Removing a freshly appended timer by id restores the original list,
provided all previously pending ids are smaller. -/
theorem filter_append_fresh (l : List Timer) (T : Timer) (n : Nat)
    (hTn : T.id = n) (h : ∀ x ∈ l, x.id < n) :
    (l ++ [T]).filter (fun t => !(t.id == n)) = l := by
  induction l with
  | nil => simp [List.filter, hTn]
  | cons a l ih =>
    have ha : a.id < n := h a (by simp)
    have hne : (a.id == n) = false := by
      simp [Nat.ne_of_lt ha]
    simp only [List.cons_append, List.filter_cons, hne]
    simp [ih (fun x hx => h x (by simp [hx]))]

/-- `clearTimeout` touches only the pending-timer list. -/
@[simp] theorem cancelTimer_isSpeaking (s : State) (tid : Nat) :
    (cancelTimer s tid).isSpeaking = s.isSpeaking := rfl

/-- Clearing the referenced tracked timer preserves the fresh counter. -/
@[simp] theorem clearTrackedRef_nextId (s : State) :
    (clearTrackedRef s).nextId = s.nextId := by
  unfold clearTrackedRef
  split <;> rfl

/-- Clearing the referenced tracked timer preserves the speaking flag. -/
@[simp] theorem clearTrackedRef_isSpeaking (s : State) :
    (clearTrackedRef s).isSpeaking = s.isSpeaking := by
  unfold clearTrackedRef
  split <;> rfl

/-- Clearing the referenced tracked timer preserves the starting flag. -/
@[simp] theorem clearTrackedRef_isStarting (s : State) :
    (clearTrackedRef s).isStarting = s.isStarting := by
  unfold clearTrackedRef
  split <;> rfl

/-- Clearing the referenced tracked timer preserves the engine flag. -/
@[simp] theorem clearTrackedRef_engineOn (s : State) :
    (clearTrackedRef s).engineOn = s.engineOn := by
  unfold clearTrackedRef
  split <;> rfl

/-- Clearing the referenced tracked timer preserves the voice toggle. -/
@[simp] theorem clearTrackedRef_voiceEnabled (s : State) :
    (clearTrackedRef s).voiceEnabled = s.voiceEnabled := by
  unfold clearTrackedRef
  split <;> rfl

/-- Clearing the referenced tracked timer preserves the engine-instance
flag. -/
@[simp] theorem clearTrackedRef_recognitionPresent (s : State) :
    (clearTrackedRef s).recognitionPresent = s.recognitionPresent := by
  unfold clearTrackedRef
  split <;> rfl

/-- Clearing the referenced tracked timer preserves the listening flag. -/
@[simp] theorem clearTrackedRef_isListening (s : State) :
    (clearTrackedRef s).isListening = s.isListening := by
  unfold clearTrackedRef
  split <;> rfl

/-- Pending timers after clearing the referenced tracked timer were already
pending before. -/
theorem mem_clearTrackedRef_timers {s : State} {x : Timer}
    (h : x ∈ (clearTrackedRef s).timers) : x ∈ s.timers := by
  unfold clearTrackedRef at h
  split at h
  · exact (List.mem_filter.mp h).1
  · exact h

/-- `restartRecognition` never touches the starting flag. -/
theorem restartRecognitionFn_isStarting (s : State) :
    (restartRecognitionFn s).isStarting = s.isStarting := by
  unfold restartRecognitionFn
  dsimp only
  split <;> simp [armTimer]

-- C3 — Invariant I4.

/-- C3: a transcript delivered by the recognition engine while the session is
Speaking is discarded: the state is unchanged (nothing queued, session stays
Speaking) and no effect — in particular no backend request — is issued. -/
theorem c3_transcript_discarded (s : State) (t : String)
    (hE : s.engineOn = true) (hSp : s.isSpeaking = true) :
    step s (Ev.recResult t) = some (s, []) := by
  simp [step, onResultFn, hE, hSp]

/-- Witness for C3: the reachable race state where the settle wait turned the
engine on while the AI is speaking; a stray transcript there is discarded. -/
theorem c3_transcript_discarded_witness :
    c3WitState.engineOn = true ∧ c3WitState.isSpeaking = true ∧
    step c3WitState (Ev.recResult "stray words") = some (c3WitState, []) :=
  ⟨by decide, by decide,
   c3_transcript_discarded c3WitState "stray words" (by decide) (by decide)⟩

-- C1 — Invariant I1.

/-- C1 counterexample: after `stopSpeaking` the session has left Speaking but
`currentAudioRef` still holds the paused audio element, so I1 fails in a
reachable state. -/
theorem c1_counterexample :
    ∃ s, Reach s ∧ ¬ invariantI1 s ∧ s.currentAudio ≠ none ∧
      s.isSpeaking = false := by
  refine ⟨c1CexState, reach_of_run true c1CexEvs c1CexState rfl, ?_, by decide, by decide⟩
  simp only [invariantI1]
  decide

/-- C1 amended: natural completion (`onended`) and media failure (`onerror`)
clear the handle and the Speaking flag together; but user Stop
(`stopSpeaking`) and a rejected `play()` promise clear the Speaking flag
while leaving the handle non-null, so the biconditional I1 does not hold. -/
theorem c1_amended (s : State) (a : Audio) (pid : Nat)
    (hA : s.currentAudio = some a) (hP : a.paused = false)
    (hSp : s.isSpeaking = true)
    (hPl : s.playQ.find? (fun p => p.1 == pid) = some (pid, a.url)) :
    (step s Ev.audioEnded).map (fun p => (p.1.currentAudio, p.1.isSpeaking))
        = some (none, false) ∧
    (step s Ev.audioErrored).map (fun p => (p.1.currentAudio, p.1.isSpeaking))
        = some (none, false) ∧
    (step s Ev.clickStop).map (fun p => (p.1.currentAudio, p.1.isSpeaking))
        = some (some ⟨a.url, true⟩, false) ∧
    (step s (Ev.playResolves pid false)).map
        (fun p => (p.1.currentAudio, p.1.isSpeaking))
        = some (some a, false) := by
  obtain ⟨u, ap⟩ := a
  simp only [Audio.paused] at hP
  subst hP
  refine ⟨?_, ?_, ?_, ?_⟩ <;>
    simp [step, hA, hSp, hPl, audioExitFn, stopSpeakingFn, playResolvesFn,
      armTimer] <;> split <;> simp

/-- Witness for C1 (amended): a reachable state with an actively playing
audio unit and its play promise in flight. -/
theorem c1_amended_witness :
    c1WitState.currentAudio = some ⟨4, false⟩ ∧ c1WitState.isSpeaking = true ∧
    c1WitState.playQ.find? (fun p => p.1 == 5) = some (5, 4) ∧
    ((step c1WitState Ev.audioEnded).map
        (fun p => (p.1.currentAudio, p.1.isSpeaking)) = some (none, false) ∧
     (step c1WitState Ev.audioErrored).map
        (fun p => (p.1.currentAudio, p.1.isSpeaking)) = some (none, false) ∧
     (step c1WitState Ev.clickStop).map
        (fun p => (p.1.currentAudio, p.1.isSpeaking)) = some (some ⟨4, true⟩, false) ∧
     (step c1WitState (Ev.playResolves 5 false)).map
        (fun p => (p.1.currentAudio, p.1.isSpeaking))
        = some (c1WitState.currentAudio, false)) :=
  ⟨by decide, by decide, by decide,
   c1_amended c1WitState ⟨4, false⟩ 5 (by decide) (by decide) (by decide) (by decide)⟩

-- C2 — Invariant I2.

/-- C2 counterexample: a reachable state whose playback handle is non-null
(the paused unit left behind by Stop) in which the pending settle timer fires
and invokes `recognition.start()`. -/
theorem c2_counterexample :
    ∃ s, Reach s ∧ s.currentAudio ≠ none ∧
      (step s (Ev.timerFires 8)).map (fun p => decide (Eff.recStartCmd ∈ p.2))
        = some true :=
  ⟨c2CexState, reach_of_run true c2CexEvs c2CexState rfl, by decide, by decide⟩

/-- C2 amended: while the session is Speaking, entering `startRecognition` is
a no-op, and no restart or debounce timer firing invokes
`recognition.start()` (only a pending settle wait can, because its second
half re-checks nothing); moreover the guard checks `isSpeaking`, not the
playback handle, which survives a user Stop. -/
theorem c2_amended (s : State) (tid : Nat) (t : Timer)
    (hSp : s.isSpeaking = true)
    (hF : s.timers.find? (fun x => x.id == tid) = some t)
    (hK : t.kind ≠ TimerKind.settle) :
    startRecognitionFn s = (s, []) ∧
    (step s (Ev.timerFires tid)).map (fun p => decide (Eff.recStartCmd ∈ p.2))
      = some false := by
  constructor
  · simp [startRecognitionFn, hSp]
  · cases ht : t.kind with
    | settle => exact absurd ht hK
    | tracked =>
      simp [step, hF, timerFiresFn, ht, cancelTimer, hSp]
    | bareRestart =>
      simp [step, hF, timerFiresFn, ht, startRecognitionFn, cancelTimer, hSp]
    | bareRetry =>
      simp [step, hF, timerFiresFn, ht, startRecognitionFn, cancelTimer, hSp]
    | sendDebounce q =>
      simp only [step, hF, timerFiresFn, ht, sendMessageFn, Option.map_some]
      split <;> simp

/-- Witness for C2 (amended): speaking while an untracked restart timer is
pending; that timer firing starts nothing. -/
theorem c2_amended_witness :
    c2WitState.isSpeaking = true ∧
    c2WitState.timers.find? (fun x => x.id == 7)
      = some ⟨7, TimerKind.bareRestart, 500⟩ ∧
    (startRecognitionFn c2WitState = (c2WitState, []) ∧
     (step c2WitState (Ev.timerFires 7)).map
        (fun p => decide (Eff.recStartCmd ∈ p.2)) = some false) :=
  ⟨by decide, by decide,
   c2_amended c2WitState 7 ⟨7, TimerKind.bareRestart, 500⟩ (by decide) (by decide)
     (by decide)⟩

-- C5 — playback resource discipline.

/-- C5 counterexample: the user clicks Stop during playback — the stop step
issues no `URL.revokeObjectURL` (its effect list is empty) and afterwards the
stopped (paused) unit can never fire its completion or error callback, so its
resource is not released on the explicit-stop exit path. -/
theorem c5_counterexample :
    ∃ s, Reach s ∧ s.isSpeaking = true ∧ s.currentAudio ≠ none ∧
      (step s Ev.clickStop).map (fun p => p.2) = some [] ∧
      ((step s Ev.clickStop).bind (fun p => step p.1 Ev.audioEnded)) = none ∧
      ((step s Ev.clickStop).bind (fun p => step p.1 Ev.audioErrored)) = none :=
  ⟨c5CexState, reach_of_run true c5CexEvs c5CexState rfl, by decide, by decide,
   by decide, by decide, by decide⟩

/-- C5 amended: natural completion and media-error failure each release the
unit's object URL exactly once (the step's effect list is exactly that one
revocation); explicit stop releases nothing and silences the unit: its
completion and error callbacks can never fire afterwards. -/
theorem c5_amended (s : State) (a : Audio)
    (hA : s.currentAudio = some a) (hP : a.paused = false)
    (hSp : s.isSpeaking = true) :
    (step s Ev.audioEnded).map (fun p => p.2) = some [Eff.revoke a.url] ∧
    (step s Ev.audioErrored).map (fun p => p.2) = some [Eff.revoke a.url] ∧
    (step s Ev.clickStop).map (fun p => p.2) = some [] ∧
    ((step s Ev.clickStop).bind (fun p => step p.1 Ev.audioEnded)) = none ∧
    ((step s Ev.clickStop).bind (fun p => step p.1 Ev.audioErrored)) = none := by
  obtain ⟨u, ap⟩ := a
  simp only [Audio.paused] at hP
  subst hP
  refine ⟨?_, ?_, ?_, ?_, ?_⟩
  · simp [step, hA, hSp, audioExitFn, armTimer]
  · simp [step, hA, hSp, audioExitFn, armTimer]
  · simp [step, hA, hSp, stopSpeakingFn, armTimer]
  · cases hv : s.voiceEnabled <;>
      simp [step, hA, hSp, stopSpeakingFn, armTimer, hv]
  · cases hv : s.voiceEnabled <;>
      simp [step, hA, hSp, stopSpeakingFn, armTimer, hv]

/-- Witness for C5 (amended): a reachable state with an actively playing
unit. -/
theorem c5_amended_witness :
    c5WitState.currentAudio = some ⟨5, false⟩ ∧ c5WitState.isSpeaking = true ∧
    ((step c5WitState Ev.audioEnded).map (fun p => p.2) = some [Eff.revoke 5] ∧
     (step c5WitState Ev.audioErrored).map (fun p => p.2) = some [Eff.revoke 5] ∧
     (step c5WitState Ev.clickStop).map (fun p => p.2) = some [] ∧
     ((step c5WitState Ev.clickStop).bind (fun p => step p.1 Ev.audioEnded)) = none ∧
     ((step c5WitState Ev.clickStop).bind (fun p => step p.1 Ev.audioErrored)) = none) :=
  ⟨by decide, by decide,
   c5_amended c5WitState ⟨5, false⟩ (by decide) (by decide) (by decide)⟩

-- C6 — terminal permission errors.

/-- C6 counterexample: after the engine reported `not-allowed` (permission
recorded `denied`, voice disabled), a previously armed untracked retry timer
fires and — two timer steps later, with no user action in between —
`recognition.start()` is invoked again. -/
theorem c6_counterexample :
    ∃ s, Reach s ∧ s.permissionStatus = "denied" ∧ s.voiceEnabled = false ∧
      ((step s (Ev.timerFires 15)).bind (fun p => step p.1 (Ev.timerFires 16))).map
        (fun p => decide (Eff.recStartCmd ∈ p.2)) = some true :=
  ⟨c6CexState, reach_of_run true c6CexEvs c6CexState rfl, by decide, by decide,
   by decide⟩

/-- C6 amended: the `not-allowed` handler records permission `denied`,
disables voice, arms no timer and issues no command; the `audio-capture`
handler records `no-microphone` and disables voice likewise; and a pending
tracked restart timer is neutralised by the denial (its guarded callback
starts nothing).  Untracked timers armed before the denial, however, are not
neutralised (see the counterexample). -/
theorem c6_amended (s : State) (tid : Nat) (t : Timer)
    (hE : s.engineOn = true)
    (hF : s.timers.find? (fun x => x.id == tid) = some t)
    (hK : t.kind = TimerKind.tracked) :
    (step s (Ev.recError .notAllowed)).map
        (fun p => (p.1.permissionStatus, p.1.voiceEnabled, p.1.timers, p.2))
      = some ("denied", false, s.timers, []) ∧
    (step s (Ev.recError .audioCapture)).map
        (fun p => (p.1.permissionStatus, p.1.voiceEnabled, p.1.timers, p.2))
      = some ("no-microphone", false, s.timers, []) ∧
    ((step s (Ev.recError .notAllowed)).bind
        (fun p => step p.1 (Ev.timerFires tid))).map (fun p => p.2)
      = some [] := by
  refine ⟨?_, ?_, ?_⟩
  · simp [step, hE, onErrorFn]
  · simp [step, hE, onErrorFn]
  · simp [step, hE, onErrorFn, hF, timerFiresFn, hK, cancelTimer]

/-- Witness for C6 (amended): engine running with a tracked restart timer
pending. -/
theorem c6_amended_witness :
    c6WitState.engineOn = true ∧
    c6WitState.timers.find? (fun x => x.id == 15)
      = some ⟨15, TimerKind.tracked, 1000⟩ ∧
    ((step c6WitState (Ev.recError .notAllowed)).map
        (fun p => (p.1.permissionStatus, p.1.voiceEnabled, p.1.timers, p.2))
      = some ("denied", false, c6WitState.timers, []) ∧
     (step c6WitState (Ev.recError .audioCapture)).map
        (fun p => (p.1.permissionStatus, p.1.voiceEnabled, p.1.timers, p.2))
      = some ("no-microphone", false, c6WitState.timers, []) ∧
     ((step c6WitState (Ev.recError .notAllowed)).bind
        (fun p => step p.1 (Ev.timerFires 15))).map (fun p => p.2)
      = some []) :=
  ⟨by decide, by decide,
   c6_amended c6WitState 15 ⟨15, TimerKind.tracked, 1000⟩ (by decide) (by decide)
     rfl⟩

-- C7 — recognition start contract.

/-- C7 counterexample: `startRecognition` is not a no-op while recognition is
already active: in a reachable listening state a pending untracked restart
fires `startRecognition`, which issues a stop command and clears the
listening flag instead of returning unchanged. -/
theorem c7_counterexample :
    ∃ s, Reach s ∧ s.isListening = true ∧
      (step s (Ev.timerFires 12)).map (fun p => (p.2, p.1.isListening))
        = some ([Eff.recStopCmd], false) :=
  ⟨c7CexState, reach_of_run true c7CexEvs c7CexState rfl, by decide, by decide⟩

/-- C7 amended: `startRecognition` does not check "already active" — its
only no-op guards are a missing engine instance and `isSpeaking`.  Otherwise
it always runs the stop–wait–start sequence: the best-effort stop is issued
(failures swallowed), a 200 ms settle wait (≥ 150 ms) is armed, and when the
settle fires the starting flag is set and `recognition.start()` is invoked;
the flag is cleared again by the `onstart` and `onerror` events. -/
theorem c7_amended (s : State)
    (hR : s.recognitionPresent = true) (hSp : s.isSpeaking = false)
    (hWF : ∀ x ∈ s.timers, x.id < s.nextId) :
    (startRecognitionFn s).2 = [Eff.recStopCmd] ∧
    (startRecognitionFn s).1.engineOn = false ∧
    (Timer.mk s.nextId TimerKind.settle 200 ∈ (startRecognitionFn s).1.timers
      ∧ 150 ≤ 200) ∧
    (step (startRecognitionFn s).1 (Ev.timerFires s.nextId)).map
        (fun p => (p.1.isStarting, p.1.engineOn, p.2))
      = some (true, true, [Eff.recStartCmd]) ∧
    ((step (startRecognitionFn s).1 (Ev.timerFires s.nextId)).bind
        (fun p => step p.1 Ev.recStarted)).map (fun p => p.1.isStarting)
      = some false ∧
    ((step (startRecognitionFn s).1 (Ev.timerFires s.nextId)).bind
        (fun p => step p.1 (Ev.recError ErrCode.other))).map
        (fun p => p.1.isStarting)
      = some false := by
  have h1 : (startRecognitionFn s).1.timers
      = (clearTrackedRef s).timers ++ [Timer.mk s.nextId TimerKind.settle 200] := by
    simp [startRecognitionFn, hR, hSp, armTimer]
  have hEng : (startRecognitionFn s).1.engineOn = false := by
    simp [startRecognitionFn, hR, hSp, armTimer]
  have hfind : ((startRecognitionFn s).1.timers).find? (fun x => x.id == s.nextId)
      = some (Timer.mk s.nextId TimerKind.settle 200) := by
    rw [h1]
    exact find_append_fresh _ _ _ rfl
      (fun x hx => hWF x (mem_clearTrackedRef_timers hx))
  refine ⟨?_, hEng, ?_, ?_, ?_, ?_⟩
  · simp [startRecognitionFn, hR, hSp, armTimer]
  · constructor
    · rw [h1]; simp
    · omega
  · simp [step, hfind, timerFiresFn, settleFiredFn, cancelTimer, hEng]
  · simp [step, hfind, timerFiresFn, settleFiredFn, cancelTimer, hEng, onStartFn]
  · simp only [step, hfind, timerFiresFn, settleFiredFn, cancelTimer, hEng]
    simp [step, onErrorFn]
    split <;> simp [restartRecognitionFn_isStarting]

/-- Witness for C7 (amended): the freshly mounted state. -/
theorem c7_amended_witness :
    (startRecognitionFn (initState true)).2 = [Eff.recStopCmd] ∧
    (startRecognitionFn (initState true)).1.engineOn = false ∧
    (Timer.mk 0 TimerKind.settle 200 ∈ (startRecognitionFn (initState true)).1.timers
      ∧ 150 ≤ 200) ∧
    (step (startRecognitionFn (initState true)).1 (Ev.timerFires 0)).map
        (fun p => (p.1.isStarting, p.1.engineOn, p.2))
      = some (true, true, [Eff.recStartCmd]) ∧
    ((step (startRecognitionFn (initState true)).1 (Ev.timerFires 0)).bind
        (fun p => step p.1 Ev.recStarted)).map (fun p => p.1.isStarting)
      = some false ∧
    ((step (startRecognitionFn (initState true)).1 (Ev.timerFires 0)).bind
        (fun p => step p.1 (Ev.recError ErrCode.other))).map
        (fun p => p.1.isStarting)
      = some false :=
  c7_amended (initState true) rfl rfl (by simp [initState])

-- C8 — backend/network error recovery.

/-- C8 counterexample: a TTS synthesis failure appends no message at all —
the conversation log is unchanged by the catch (which only logs to the
console), refuting "exactly one inline error message per failed request". -/
theorem c8_counterexample :
    ∃ s, Reach s ∧
      (step s (Ev.ttsResponds 3 false)).map
        (fun p => (decide (p.1.messages = s.messages), p.2)) = some (true, []) :=
  ⟨c8CexState, reach_of_run true c8CexEvs c8CexState rfl, by decide⟩

/-- C8 amended: a failed backend call appends exactly one inline error
message, clears loading, arms nothing and issues no command (the session
continues); a failed TTS call appends no message — it clears the speaking
state silently and, when voice is enabled, arms the untracked 500 ms restart
that resumes listening. -/
theorem c8_amended (s : State) (ridB ridT mid : Nat) (q text : String)
    (hB : s.backendQ.find? (fun p => p.1 == ridB) = some (ridB, q))
    (hT : s.ttsQ.find? (fun p => p.1 == ridT) = some (ridT, text, mid)) :
    (step s (Ev.backendResponds ridB none)).map
        (fun p => (p.1.messages, p.1.timers, p.1.loading, p.2))
      = some (s.messages ++
            [⟨Sender.bot, "⚠️ Failed to connect to assistant.", s.nextId⟩],
          s.timers, false, []) ∧
    (step s (Ev.ttsResponds ridT false)).map
        (fun p => (p.1.messages, p.1.isSpeaking, p.1.timers, p.2))
      = some (s.messages, false,
          (if s.voiceEnabled then
            s.timers ++ [Timer.mk s.nextId TimerKind.bareRestart 500]
          else s.timers), []) := by
  constructor
  · simp [step, hB, backendRespondsFn]
  · cases hv : s.voiceEnabled <;>
      simp [step, hT, ttsRespondsFn, armTimer, hv]

/-- Witness for C8 (amended): a state with both a backend request (id 7) and
a TTS request (id 5) in flight. -/
theorem c8_amended_witness :
    c8WitState.backendQ.find? (fun p => p.1 == 7) = some (7, "spoken") ∧
    c8WitState.ttsQ.find? (fun p => p.1 == 5) = some (5, "ansA", 4) ∧
    ((step c8WitState (Ev.backendResponds 7 none)).map
        (fun p => (p.1.messages, p.1.timers, p.1.loading, p.2))
      = some (c8WitState.messages ++
            [⟨Sender.bot, "⚠️ Failed to connect to assistant.", 8⟩],
          c8WitState.timers, false, []) ∧
     (step c8WitState (Ev.ttsResponds 5 false)).map
        (fun p => (p.1.messages, p.1.isSpeaking, p.1.timers, p.2))
      = some (c8WitState.messages, false,
          (if c8WitState.voiceEnabled then
            c8WitState.timers ++ [Timer.mk 8 TimerKind.bareRestart 500]
          else c8WitState.timers), [])) :=
  ⟨by decide, by decide,
   c8_amended c8WitState 7 5 4 "spoken" "ansA" (by decide) (by decide)⟩

-- C10 — missing API key.

/-- C10: without an API key, a delivered answer (not muted) still appends the
bot message, but `speakWithOpenAI` returns at once: no TTS request and no
recognition command is issued, the session does not enter Speaking, no
restart is scheduled — the step only removes the settled request, appends the
message and clears loading. -/
theorem c10_missing_key (s : State) (rid : Nat) (q resp : String)
    (hK : s.hasApiKey = false) (hM : s.muted = false)
    (hF : s.backendQ.find? (fun p => p.1 == rid) = some (rid, q)) :
    step s (Ev.backendResponds rid (some resp)) =
      some ({ s with
        backendQ := s.backendQ.filter (fun p => !(p.1 == rid))
        messages := s.messages ++ [⟨Sender.bot, formatResponse resp, s.nextId⟩]
        nextId := s.nextId + 1
        loading := false }, []) := by
  simp [step, hF, backendRespondsFn, speakWithOpenAIFn, hK, hM]

/-- Witness for C10: keyless state with a backend request in flight. -/
theorem c10_missing_key_witness :
    c10WitState.hasApiKey = false ∧ c10WitState.muted = false ∧
    step c10WitState (Ev.backendResponds 1 (some "the answer")) =
      some ({ c10WitState with
        backendQ := c10WitState.backendQ.filter (fun p => !(p.1 == 1))
        messages := c10WitState.messages ++
          [⟨Sender.bot, formatResponse "the answer", c10WitState.nextId⟩]
        nextId := c10WitState.nextId + 1
        loading := false }, []) :=
  ⟨by decide, by decide,
   c10_missing_key c10WitState 1 "hello" "the answer" (by decide) (by decide)
     (by decide)⟩

-- C9 — transcript acceptance.

/-- C9: a transcript delivered while not Speaking and non-empty after
trimming fills the input field, arms the 500 ms debounce, and when the
debounce fires exactly the trimmed transcript is submitted: the user message
is appended and the backend request carries the trimmed text; a transcript
empty after trimming changes nothing and no backend request is ever made. -/
theorem c9_transcript_accepted (s : State) (t : String)
    (hE : s.engineOn = true) (hSp : s.isSpeaking = false)
    (hWF : ∀ x ∈ s.timers, x.id < s.nextId)
    (hTr : jsTrim (jsTrim t) = jsTrim t) :
    step s (Ev.recResult t) =
      some ((if jsTrim t = "" then s
        else { s with
          isProcessingVoice := true
          query := jsTrim t
          timers := s.timers ++
            [Timer.mk s.nextId (TimerKind.sendDebounce (jsTrim t)) 500]
          nextId := s.nextId + 1 }), []) ∧
    ((step s (Ev.recResult t)).bind (fun p => step p.1 (Ev.timerFires s.nextId)))
      = (if jsTrim t = "" then none
        else some ({ s with
          messages := s.messages ++ [⟨Sender.user, jsTrim t, s.nextId + 1⟩]
          loading := true
          query := ""
          isProcessingVoice := false
          backendQ := s.backendQ ++ [(s.nextId + 2, jsTrim t)]
          nextId := s.nextId + 3 }, [Eff.backendRequest (jsTrim t)])) := by
  by_cases h : jsTrim t = ""
  · constructor
    · simp [step, onResultFn, hE, hSp, h]
    · have hnone : s.timers.find? (fun x => x.id == s.nextId) = none := by
        rw [List.find?_eq_none]
        intro x hx
        simp [Nat.ne_of_lt (hWF x hx)]
      simp [step, onResultFn, hE, hSp, h, hnone]
  · have hfind : (s.timers ++
        [Timer.mk s.nextId (TimerKind.sendDebounce (jsTrim t)) 500]).find?
          (fun x => x.id == s.nextId)
        = some (Timer.mk s.nextId (TimerKind.sendDebounce (jsTrim t)) 500) :=
      find_append_fresh _ _ _ rfl hWF
    have hfilter : (s.timers ++
        [Timer.mk s.nextId (TimerKind.sendDebounce (jsTrim t)) 500]).filter
          (fun x => !(x.id == s.nextId)) = s.timers :=
      filter_append_fresh _ _ _ rfl hWF
    constructor
    · simp [step, onResultFn, hE, hSp, h, armTimer]
    · simp [step, onResultFn, hE, hSp, h, armTimer, timerFiresFn, cancelTimer,
        hfind, hfilter, sendMessageFn, hTr]

/-- Witness for C9: the listening state accepting the scenario transcript. -/
theorem c9_transcript_accepted_witness :
    c9WitState.engineOn = true ∧ c9WitState.isSpeaking = false ∧
    (step c9WitState (Ev.recResult "what recipes use coconut milk") =
      some ((if jsTrim "what recipes use coconut milk" = "" then c9WitState
        else { c9WitState with
          isProcessingVoice := true
          query := jsTrim "what recipes use coconut milk"
          timers := c9WitState.timers ++
            [Timer.mk 1 (TimerKind.sendDebounce
              (jsTrim "what recipes use coconut milk")) 500]
          nextId := 2 }), []) ∧
     ((step c9WitState (Ev.recResult "what recipes use coconut milk")).bind
        (fun p => step p.1 (Ev.timerFires 1)))
      = (if jsTrim "what recipes use coconut milk" = "" then none
        else some ({ c9WitState with
          messages := c9WitState.messages ++
            [⟨Sender.user, jsTrim "what recipes use coconut milk", 2⟩]
          loading := true
          query := ""
          isProcessingVoice := false
          backendQ := c9WitState.backendQ ++
            [(3, jsTrim "what recipes use coconut milk")]
          nextId := 4 },
          [Eff.backendRequest (jsTrim "what recipes use coconut milk")]))) :=
  ⟨by decide, by decide,
   c9_transcript_accepted c9WitState "what recipes use coconut milk"
     (by decide) (by decide) (by decide) (by decide)⟩

-- C4 — invariant I3: timer bookkeeping.

/-- `TimersOk` only depends on the timer list, the tracked reference and the
fresh counter; it is stable under any other field update and under growing
the counter. -/
theorem timersOk_of_eq {s s' : State} (h : TimersOk s)
    (ht : s'.timers = s.timers) (hr : s'.restartTimeout = s.restartTimeout)
    (hn : s.nextId ≤ s'.nextId) : TimersOk s' := by
  obtain ⟨h1, h2, h3⟩ := h
  refine ⟨?_, ?_, ?_⟩
  · intro t htm
    rw [ht] at htm
    exact lt_of_lt_of_le (h1 t htm) hn
  · rw [ht]; exact h2
  · intro t htm hk
    rw [ht] at htm
    rw [hr]
    exact h3 t htm hk

/-- Variant of `timersOk_of_eq` taking the target state explicitly. -/
theorem timersOk_update (s' : State) {s : State} (h : TimersOk s)
    (ht : s'.timers = s.timers) (hr : s'.restartTimeout = s.restartTimeout)
    (hn : s.nextId ≤ s'.nextId) : TimersOk s' :=
  timersOk_of_eq h ht hr hn

/-- Cancelling a timer preserves the timer bookkeeping. -/
theorem timersOk_cancelTimer (s : State) (tid : Nat) (h : TimersOk s) :
    TimersOk (cancelTimer s tid) := by
  obtain ⟨h1, h2, h3⟩ := h
  refine ⟨?_, ?_, ?_⟩
  · intro t htm
    exact h1 t (List.mem_of_mem_filter htm)
  · exact List.Nodup.sublist (List.Sublist.map _ (List.filter_sublist _)) h2
  · intro t htm hk
    exact h3 t (List.mem_of_mem_filter htm) hk

/-- Clearing the referenced tracked timer preserves the bookkeeping. -/
theorem timersOk_clearTrackedRef (s : State) (h : TimersOk s) :
    TimersOk (clearTrackedRef s) := by
  unfold clearTrackedRef
  split
  · exact timersOk_cancelTimer _ _ h
  · exact h

/-- Arming a non-tracked timer preserves the bookkeeping. -/
theorem timersOk_armTimer (s : State) (k : TimerKind) (d : Nat)
    (hk : k ≠ TimerKind.tracked) (h : TimersOk s) :
    TimersOk (armTimer s k d).1 := by
  obtain ⟨h1, h2, h3⟩ := h
  refine ⟨?_, ?_, ?_⟩
  · intro t htm
    simp only [armTimer] at htm ⊢
    rcases List.mem_append.mp htm with hl | hr
    · exact Nat.lt_succ_of_lt (h1 t hl)
    · simp only [List.mem_singleton] at hr
      subst hr
      exact Nat.lt_succ_self _
  · simp only [armTimer, List.map_append]
    rw [List.nodup_append]
    refine ⟨h2, by simp, ?_⟩
    intro a ha hb
    simp only [List.map_cons, List.map_nil, List.mem_singleton] at hb
    subst hb
    obtain ⟨t, htm, hid⟩ := List.mem_map.mp ha
    exact absurd (hid ▸ h1 t htm) (lt_irrefl _)
  · intro t htm hk2
    simp only [armTimer] at htm ⊢
    rcases List.mem_append.mp htm with hl | hr
    · exact h3 t hl hk2
    · simp only [List.mem_singleton] at hr
      subst hr
      exact absurd hk2 hk

/-- After clearing the referenced tracked timer no tracked timer is
pending. -/
theorem no_tracked_after_clear (s : State) (h : TimersOk s) :
    ∀ t ∈ (clearTrackedRef s).timers, t.kind ≠ TimerKind.tracked := by
  obtain ⟨h1, h2, h3⟩ := h
  intro t htm hk
  unfold clearTrackedRef at htm
  cases hrt : s.restartTimeout with
  | none =>
    rw [hrt] at htm
    have href := h3 t htm hk
    rw [hrt] at href
    exact Option.noConfusion href
  | some tid =>
    rw [hrt] at htm
    simp only [cancelTimer] at htm
    have hmem := List.mem_of_mem_filter htm
    have href := h3 t hmem hk
    rw [hrt] at href
    have htid : tid = t.id := Option.some.inj href
    have hflt := List.of_mem_filter htm
    simp [htid] at hflt

/-- `restartRecognition` preserves the bookkeeping: before arming the new
tracked timer it removes the referenced one, which by the invariant is the
only pending tracked timer. -/
theorem timersOk_restartRecognitionFn (s : State) (h : TimersOk s) :
    TimersOk (restartRecognitionFn s) := by
  have hC : TimersOk (clearTrackedRef s) := timersOk_clearTrackedRef s h
  have hNo := no_tracked_after_clear s h
  unfold restartRecognitionFn
  dsimp only
  split
  · exact hC
  · obtain ⟨h1, h2, h3⟩ := hC
    refine ⟨?_, ?_, ?_⟩
    · intro t htm
      simp only [armTimer] at htm ⊢
      rcases List.mem_append.mp htm with hl | hr
      · exact Nat.lt_succ_of_lt (h1 t hl)
      · simp only [List.mem_singleton] at hr
        subst hr
        exact Nat.lt_succ_self _
    · simp only [armTimer, List.map_append]
      rw [List.nodup_append]
      refine ⟨h2, by simp, ?_⟩
      intro a ha hb
      simp only [List.map_cons, List.map_nil, List.mem_singleton] at hb
      subst hb
      obtain ⟨t, htm, hid⟩ := List.mem_map.mp ha
      exact absurd (hid ▸ h1 t htm) (lt_irrefl _)
    · intro t htm hk2
      simp only [armTimer] at htm ⊢
      rcases List.mem_append.mp htm with hl | hr
      · exact absurd hk2 (hNo t hl)
      · simp only [List.mem_singleton] at hr
        subst hr
        rfl

/-- `stopRecognition` preserves the bookkeeping. -/
theorem timersOk_stopRecognitionFn (s : State) (h : TimersOk s) :
    TimersOk (stopRecognitionFn s).1 := by
  unfold stopRecognitionFn
  dsimp only
  split <;>
    exact timersOk_clearTrackedRef _ (timersOk_of_eq h rfl rfl le_rfl)

/-- `startRecognition` (first half) preserves the bookkeeping. -/
theorem timersOk_startRecognitionFn (s : State) (h : TimersOk s) :
    TimersOk (startRecognitionFn s).1 := by
  unfold startRecognitionFn
  dsimp only
  split
  · exact h
  · exact timersOk_armTimer _ _ _ (by decide)
      (timersOk_of_eq (timersOk_clearTrackedRef s h) rfl rfl le_rfl)

/-- The settle continuation preserves the bookkeeping. -/
theorem timersOk_settleFiredFn (s : State) (h : TimersOk s) :
    TimersOk (settleFiredFn s).1 := by
  unfold settleFiredFn
  dsimp only
  split
  · split
    · exact timersOk_armTimer _ _ _ (by decide) (timersOk_of_eq h rfl rfl le_rfl)
    · exact timersOk_of_eq h rfl rfl le_rfl
  · exact timersOk_of_eq h rfl rfl le_rfl

/-- `sendMessage` (entry) preserves the bookkeeping. -/
theorem timersOk_sendMessageFn (s : State) (q : String) (h : TimersOk s) :
    TimersOk (sendMessageFn s q).1 := by
  unfold sendMessageFn
  dsimp only
  split
  · exact h
  · exact timersOk_of_eq h rfl rfl (Nat.le_add_right _ _)

/-- `speakWithOpenAI` (entry) preserves the bookkeeping. -/
theorem timersOk_speakWithOpenAIFn (s : State) (text : String) (mid : Nat)
    (h : TimersOk s) : TimersOk (speakWithOpenAIFn s text mid).1 := by
  unfold speakWithOpenAIFn
  dsimp only
  split
  · exact h
  · have hs := timersOk_stopRecognitionFn
      { s with isSpeaking := true, currentSpeakingId := some mid }
      (timersOk_of_eq h (by rfl) (by rfl) le_rfl)
    exact timersOk_of_eq hs (by rfl) (by rfl) (Nat.le_add_right _ _)

/-- The backend-fetch continuation preserves the bookkeeping. -/
theorem timersOk_backendRespondsFn (s : State) (rid : Nat) (q : String)
    (resp : Option String) (h : TimersOk s) :
    TimersOk (backendRespondsFn s rid q resp).1 := by
  unfold backendRespondsFn
  dsimp only
  cases resp with
  | some r =>
    dsimp only
    split
    · split
      · exact timersOk_update _
          (timersOk_speakWithOpenAIFn _ _ _
            (timersOk_update _ h (by rfl) (by rfl) (Nat.le_add_right _ _)))
          (by rfl) (by rfl) le_rfl
      · exact timersOk_speakWithOpenAIFn _ _ _
          (timersOk_update _ h (by rfl) (by rfl) (Nat.le_add_right _ _))
    · exact timersOk_update _ h (by rfl) (by rfl) (Nat.le_add_right _ _)
  | none =>
    dsimp only
    exact timersOk_update _ h (by rfl) (by rfl) (Nat.le_add_right _ _)

/-- The TTS-fetch continuation preserves the bookkeeping. -/
theorem timersOk_ttsRespondsFn (s : State) (rid : Nat) (ok : Bool)
    (h : TimersOk s) : TimersOk (ttsRespondsFn s rid ok).1 := by
  unfold ttsRespondsFn
  dsimp only
  split
  · exact timersOk_update _ h (by rfl) (by rfl) (Nat.le_add_right _ _)
  · split
    · exact timersOk_armTimer _ TimerKind.bareRestart 500 (by decide)
        (timersOk_update _ h (by rfl) (by rfl) le_rfl)
    · exact timersOk_update _ h (by rfl) (by rfl) le_rfl

/-- The play-promise continuation preserves the bookkeeping. -/
theorem timersOk_playResolvesFn (s : State) (pid : Nat) (ok : Bool)
    (h : TimersOk s) : TimersOk (playResolvesFn s pid ok).1 := by
  unfold playResolvesFn
  dsimp only
  split
  · exact timersOk_update _ h (by rfl) (by rfl) le_rfl
  · split
    · exact timersOk_armTimer _ TimerKind.bareRestart 500 (by decide)
        (timersOk_update _ h (by rfl) (by rfl) le_rfl)
    · exact timersOk_update _ h (by rfl) (by rfl) le_rfl

/-- Playback completion/failure preserves the bookkeeping. -/
theorem timersOk_audioExitFn (s : State) (a : Audio) (h : TimersOk s) :
    TimersOk (audioExitFn s a).1 := by
  unfold audioExitFn
  dsimp only
  split
  · exact timersOk_armTimer _ TimerKind.bareRestart 500 (by decide)
      (timersOk_update _ h (by rfl) (by rfl) le_rfl)
  · exact timersOk_update _ h (by rfl) (by rfl) le_rfl

/-- `stopSpeaking` preserves the bookkeeping. -/
theorem timersOk_stopSpeakingFn (s : State) (h : TimersOk s) :
    TimersOk (stopSpeakingFn s).1 := by
  unfold stopSpeakingFn
  dsimp only
  cases hA : s.currentAudio with
  | none =>
    dsimp only
    split
    · exact timersOk_armTimer _ TimerKind.bareRestart 500 (by decide)
        (timersOk_update _ h (by rfl) (by rfl) le_rfl)
    · exact timersOk_update _ h (by rfl) (by rfl) le_rfl
  | some a =>
    dsimp only
    split
    · exact timersOk_armTimer _ TimerKind.bareRestart 500 (by decide)
        (timersOk_update _ h (by rfl) (by rfl) le_rfl)
    · exact timersOk_update _ h (by rfl) (by rfl) le_rfl

/-- `recognition.onresult` preserves the bookkeeping. -/
theorem timersOk_onResultFn (s : State) (t : String) (h : TimersOk s) :
    TimersOk (onResultFn s t) := by
  unfold onResultFn
  dsimp only
  split
  · exact h
  · split
    · exact h
    · exact timersOk_armTimer _ (TimerKind.sendDebounce (jsTrim t)) 500 (by simp)
        (timersOk_update _ h (by rfl) (by rfl) le_rfl)

/-- `recognition.onerror` preserves the bookkeeping. -/
theorem timersOk_onErrorFn (s : State) (c : ErrCode) (h : TimersOk s) :
    TimersOk (onErrorFn s c) := by
  unfold onErrorFn
  dsimp only
  cases c with
  | notAllowed =>
    dsimp only
    exact timersOk_update _ h (by rfl) (by rfl) le_rfl
  | audioCapture =>
    dsimp only
    exact timersOk_update _ h (by rfl) (by rfl) le_rfl
  | noSpeech =>
    dsimp only
    split
    · exact timersOk_restartRecognitionFn _
        (timersOk_update _ h (by rfl) (by rfl) le_rfl)
    · exact timersOk_update _ h (by rfl) (by rfl) le_rfl
  | other =>
    dsimp only
    split
    · exact timersOk_restartRecognitionFn _
        (timersOk_update _ h (by rfl) (by rfl) le_rfl)
    · exact timersOk_update _ h (by rfl) (by rfl) le_rfl

/-- `recognition.onend` preserves the bookkeeping. -/
theorem timersOk_onEndFn (s : State) (h : TimersOk s) :
    TimersOk (onEndFn s) := by
  unfold onEndFn
  dsimp only
  split
  · exact timersOk_restartRecognitionFn _
      (timersOk_update _ h (by rfl) (by rfl) le_rfl)
  · exact timersOk_update _ h (by rfl) (by rfl) le_rfl

/-- `toggleVoiceInput` preserves the bookkeeping. -/
theorem timersOk_toggleVoiceFn (s : State) (g : Bool) (h : TimersOk s) :
    TimersOk (toggleVoiceFn s g).1 := by
  unfold toggleVoiceFn
  dsimp only
  split
  · exact h
  · split
    · split
      · split
        · split
          · exact timersOk_startRecognitionFn _
              (timersOk_update _ h (by rfl) (by rfl) le_rfl)
          · exact timersOk_update _ h (by rfl) (by rfl) le_rfl
        · exact timersOk_update _ h (by rfl) (by rfl) le_rfl
      · split
        · exact timersOk_startRecognitionFn _
            (timersOk_update _ h (by rfl) (by rfl) le_rfl)
        · exact timersOk_update _ h (by rfl) (by rfl) le_rfl
    · exact timersOk_stopRecognitionFn _
        (timersOk_update _ h (by rfl) (by rfl) le_rfl)

/-- A timer firing preserves the bookkeeping. -/
theorem timersOk_timerFiresFn (s : State) (t : Timer) (h : TimersOk s) :
    TimersOk (timerFiresFn s t).1 := by
  obtain ⟨tid, tk, td⟩ := t
  have hC : TimersOk (cancelTimer s tid) := timersOk_cancelTimer s tid h
  unfold timerFiresFn
  dsimp only
  cases tk with
  | tracked =>
    dsimp only
    split
    · exact timersOk_startRecognitionFn _ hC
    · exact hC
  | bareRestart =>
    dsimp only
    exact timersOk_startRecognitionFn _ hC
  | bareRetry =>
    dsimp only
    exact timersOk_startRecognitionFn _ hC
  | settle =>
    dsimp only
    exact timersOk_settleFiredFn _ hC
  | sendDebounce q =>
    dsimp only
    exact timersOk_update _ (timersOk_sendMessageFn _ _ hC) (by rfl) (by rfl)
      le_rfl

/-- The initial state has sound timer bookkeeping. -/
theorem timersOk_init (k : Bool) : TimersOk (initState k) := by
  refine ⟨?_, ?_, ?_⟩ <;> simp [initState, TimersOk]

/-- Every step preserves the timer bookkeeping. -/
theorem timersOk_step {s s' : State} {effs : List Eff} {e : Ev}
    (h : TimersOk s) (hst : step s e = some (s', effs)) : TimersOk s' := by
  cases e with
  | toggleVoice g =>
    simp only [step] at hst
    split at hst
    · obtain ⟨h1, h2⟩ := Prod.mk.injEq .. ▸ Option.some.inj hst
      exact h1 ▸ timersOk_toggleVoiceFn s g h
    · exact Option.noConfusion hst
  | toggleMute =>
    simp only [step, Option.some.injEq, Prod.mk.injEq] at hst
    obtain ⟨h1, h2⟩ := hst
    exact h1 ▸ timersOk_update _ h (by rfl) (by rfl) le_rfl
  | clickStop =>
    simp only [step] at hst
    split at hst
    · obtain ⟨h1, h2⟩ := Prod.mk.injEq .. ▸ Option.some.inj hst
      exact h1 ▸ timersOk_stopSpeakingFn s h
    · exact Option.noConfusion hst
  | userSubmits text =>
    simp only [step] at hst
    split at hst
    · obtain ⟨h1, h2⟩ := Prod.mk.injEq .. ▸ Option.some.inj hst
      exact h1 ▸ timersOk_sendMessageFn _ _
        (timersOk_update _ h (by rfl) (by rfl) le_rfl)
    · exact Option.noConfusion hst
  | recStarted =>
    simp only [step] at hst
    split at hst
    · obtain ⟨h1, h2⟩ := Prod.mk.injEq .. ▸ Option.some.inj hst
      exact h1 ▸ timersOk_update _ h (by rfl) (by rfl) le_rfl
    · exact Option.noConfusion hst
  | recResult t =>
    simp only [step] at hst
    split at hst
    · obtain ⟨h1, h2⟩ := Prod.mk.injEq .. ▸ Option.some.inj hst
      exact h1 ▸ timersOk_onResultFn s t h
    · exact Option.noConfusion hst
  | recError c =>
    simp only [step] at hst
    split at hst
    · obtain ⟨h1, h2⟩ := Prod.mk.injEq .. ▸ Option.some.inj hst
      exact h1 ▸ timersOk_onErrorFn s c h
    · exact Option.noConfusion hst
  | recEnded =>
    simp only [step] at hst
    split at hst
    · obtain ⟨h1, h2⟩ := Prod.mk.injEq .. ▸ Option.some.inj hst
      exact h1 ▸ timersOk_onEndFn s h
    · exact Option.noConfusion hst
  | timerFires tid =>
    simp only [step] at hst
    split at hst
    · next t _ =>
      obtain ⟨h1, h2⟩ := Prod.mk.injEq .. ▸ Option.some.inj hst
      exact h1 ▸ timersOk_timerFiresFn s t h
    · exact Option.noConfusion hst
  | backendResponds rid resp =>
    simp only [step] at hst
    split at hst
    · next pr _ =>
      obtain ⟨h1, h2⟩ := Prod.mk.injEq .. ▸ Option.some.inj hst
      exact h1 ▸ timersOk_backendRespondsFn s rid pr.2 resp h
    · exact Option.noConfusion hst
  | ttsResponds rid ok =>
    simp only [step] at hst
    split at hst
    · obtain ⟨h1, h2⟩ := Prod.mk.injEq .. ▸ Option.some.inj hst
      exact h1 ▸ timersOk_ttsRespondsFn s rid ok h
    · exact Option.noConfusion hst
  | playResolves pid ok =>
    simp only [step] at hst
    split at hst
    · obtain ⟨h1, h2⟩ := Prod.mk.injEq .. ▸ Option.some.inj hst
      exact h1 ▸ timersOk_playResolvesFn s pid ok h
    · exact Option.noConfusion hst
  | audioEnded =>
    simp only [step] at hst
    split at hst
    · next a _ =>
      split at hst
      · exact Option.noConfusion hst
      · obtain ⟨h1, h2⟩ := Prod.mk.injEq .. ▸ Option.some.inj hst
        exact h1 ▸ timersOk_audioExitFn s a h
    · exact Option.noConfusion hst
  | audioErrored =>
    simp only [step] at hst
    split at hst
    · next a _ =>
      split at hst
      · exact Option.noConfusion hst
      · obtain ⟨h1, h2⟩ := Prod.mk.injEq .. ▸ Option.some.inj hst
        exact h1 ▸ timersOk_audioExitFn s a h
    · exact Option.noConfusion hst

/-- Running any event list preserves the timer bookkeeping. -/
theorem timersOk_runS : ∀ (evs : List Ev) (s s' : State),
    TimersOk s → runS s evs = some s' → TimersOk s' := by
  intro evs
  induction evs with
  | nil =>
    intro s s' h hr
    simp only [runS, Option.some.injEq] at hr
    exact hr ▸ h
  | cons e evs ih =>
    intro s s' h hr
    simp only [runS] at hr
    split at hr
    · next p hp => exact ih p.1 s' (timersOk_step h hp) hr
    · exact Option.noConfusion hr

/-- Every reachable state has sound timer bookkeeping. -/
theorem timersOk_reach {s : State} (h : Reach s) : TimersOk s := by
  obtain ⟨k, evs, hr⟩ := h
  exact timersOk_runS evs _ s (timersOk_init k) hr

/-- A list of timers with pairwise distinct ids in which every tracked timer
carries the single referenced id contains at most one tracked timer. -/
theorem tracked_count_le_one (l : List Timer) (r : Option Nat)
    (hnd : (l.map Timer.id).Nodup)
    (htr : ∀ t ∈ l, t.kind = TimerKind.tracked → r = some t.id) :
    (l.filter (fun t => t.kind == TimerKind.tracked)).length ≤ 1 := by
  induction l with
  | nil => simp
  | cons a l ih =>
    simp only [List.map_cons, List.nodup_cons] at hnd
    obtain ⟨hna, hnd2⟩ := hnd
    by_cases hk : a.kind = TimerKind.tracked
    · have hnone : ∀ t ∈ l, t.kind ≠ TimerKind.tracked := by
        intro t htm hkt
        have h1 := htr a (by simp) hk
        have h2 := htr t (by simp [htm]) hkt
        rw [h1] at h2
        have hid : a.id = t.id := Option.some.inj h2
        exact hna (hid ▸ List.mem_map_of_mem Timer.id htm)
      have hflt : l.filter (fun t => t.kind == TimerKind.tracked) = [] := by
        rw [List.filter_eq_nil_iff]
        intro t htm
        simp [hnone t htm]
      simp [List.filter_cons, hk, hflt]
    · have hne : (a.kind == TimerKind.tracked) = false := by simp [hk]
      simp only [List.filter_cons, hne, Bool.false_eq_true, if_false]
      exact ih hnd2 (fun t htm hkt => htr t (by simp [htm]) hkt)

/-- C4 counterexample: two untracked restart timers pending at once in a
reachable state — one armed by natural playback completion, one by a TTS
failure — refuting "at most one restart timer is pending at any instant". -/
theorem c4_counterexample :
    ∃ s, Reach s ∧ 2 ≤ (restartTimers s).length :=
  ⟨c4CexState, reach_of_run true c4CexEvs c4CexState rfl, by decide⟩

/-- C4 amended: the claim holds for the tracked timer (`restartTimeoutRef`):
`restartRecognition` cancels the referenced pending timer before arming a
new one, so every reachable state has at most one tracked restart timer
pending; the untracked exit-path and retry timers are not covered and can
accumulate. -/
theorem c4_amended (s : State) (h : Reach s) : countTracked s ≤ 1 := by
  obtain ⟨h1, h2, h3⟩ := timersOk_reach h
  exact tracked_count_le_one s.timers s.restartTimeout h2 h3

/-- Witness for C4 (amended): the reachable state with the tracked restart
timer armed after a recognition `onend`. -/
theorem c4_amended_witness : Reach c4WitState ∧ countTracked c4WitState ≤ 1 :=
  ⟨reach_of_run true c4WitEvs c4WitState rfl,
   c4_amended c4WitState (reach_of_run true c4WitEvs c4WitState rfl)⟩

end VoiceChat
